import Mathlib

/-!
Verification of the weighted-statistics core of `ProbabilitiesLab5.cpp`.

The C++ program works on IEEE doubles; the embedding uses `ℚ` so that the
algebraic content of the accumulator and the interval formulas can be settled
exactly.  External mathematical routines (`boost::math::quantile`, `std::sqrt`)
are modelled as abstract function parameters, wrapped — where the program's
behaviour depends on it — in the domain checks the specification ascribes to
them.  Fallible steps (quantile domain errors, JSON accesses of absent fields)
are modelled with `Except`.
-/

namespace ProbLab5

/-- Errors the program can raise: quantile domain violations (boost throws a
domain error) and accesses to JSON fields that were never computed (nlohmann
json yields `null` and the numeric conversion throws). -/
inductive RunError where
  | domainError : RunError
  | missingData : RunError
deriving DecidableEq

/-- Source function `sampleSize` (lines 13–19): sum of the weights of a weighted sequence,
accumulated by a running loop `count += amount`. -/
def sampleSize (values : List (ℚ × ℚ)) : ℚ :=
  values.foldl (fun count p => count + p.2) 0

/-- The loop body of `sampleMean` (lines 24–30): starting from accumulators
`mean` and `count`, process the remaining pairs by
`count += amount; mean += amount * (value - mean) / count`. -/
def sampleMeanGo (mean count : ℚ) : List (ℚ × ℚ) → ℚ
  | [] => mean
  | (value, amount) :: rest =>
      sampleMeanGo (mean + amount * (value - mean) / (count + amount))
        (count + amount) rest

/-- Source function `sampleMean` (lines 22–31): Welford-style incremental weighted mean. -/
def sampleMean (values : List (ℚ × ℚ)) : ℚ :=
  sampleMeanGo 0 0 values

/-- Source function `biasedSampleVariance` (lines 34–43): the running mean applied to the
sequence of squared deviations `(value - mean)^2`, identically weighted. -/
def biasedSampleVariance (values : List (ℚ × ℚ)) : ℚ :=
  let mean := sampleMean values
  sampleMean (values.map (fun p => ((p.1 - mean) ^ 2, p.2)))

/-- Source function `makeVarSeries` (lines 101–105): raw values become pairs of weight 1. -/
def makeVarSeries (values : List ℚ) : List (ℚ × ℚ) :=
  values.map (fun v => (v, 1))

/-- Mathematical total weight `Σ wᵢ` of a weighted sequence. -/
def sizeSum (values : List (ℚ × ℚ)) : ℚ :=
  (values.map Prod.snd).sum

/-- Mathematical weighted value sum `Σ wᵢ·vᵢ` of a weighted sequence. -/
def wsum (values : List (ℚ × ℚ)) : ℚ :=
  (values.map (fun p => p.2 * p.1)).sum

lemma sizeSum_nil : sizeSum [] = 0 := rfl

lemma sizeSum_cons (p : ℚ × ℚ) (l : List (ℚ × ℚ)) :
    sizeSum (p :: l) = p.2 + sizeSum l := by
  simp [sizeSum]

lemma wsum_nil : wsum [] = 0 := rfl

lemma wsum_cons (p : ℚ × ℚ) (l : List (ℚ × ℚ)) :
    wsum (p :: l) = p.2 * p.1 + wsum l := by
  simp [wsum]

lemma sizeSum_nonneg (l : List (ℚ × ℚ)) (h : ∀ p ∈ l, 0 ≤ p.2) :
    0 ≤ sizeSum l := by
  induction l with
  | nil => simp [sizeSum_nil]
  | cons p rest ih =>
    rw [sizeSum_cons]
    have hp := h p (List.mem_cons_self p rest)
    have hr := ih (fun q hq => h q (List.mem_cons_of_mem p hq))
    linarith

lemma sampleSize_go (l : List (ℚ × ℚ)) :
    ∀ c : ℚ, l.foldl (fun count p => count + p.2) c = c + sizeSum l := by
  induction l with
  | nil => intro c; simp [sizeSum_nil]
  | cons p rest ih =>
    intro c
    rw [List.foldl_cons, ih, sizeSum_cons]
    ring

lemma sampleSize_eq_sizeSum (l : List (ℚ × ℚ)) : sampleSize l = sizeSum l := by
  rw [sampleSize, sampleSize_go]
  ring

/-- Invariant of the incremental mean loop: with a non-negative accumulated
weight `count` (and a zero mean whenever `count = 0`), the loop computes the
ratio `(mean·count + Σwᵢvᵢ) / (count + Σwᵢ)` (with `x / 0 = 0`). -/
lemma sampleMeanGo_spec (l : List (ℚ × ℚ)) :
    ∀ mean count : ℚ, (∀ p ∈ l, 0 ≤ p.2) → 0 ≤ count → (count = 0 → mean = 0) →
      sampleMeanGo mean count l = (mean * count + wsum l) / (count + sizeSum l) := by
  induction l with
  | nil =>
    intro mean count _ _ hz
    rw [sampleMeanGo, wsum_nil, sizeSum_nil, add_zero, add_zero]
    by_cases hc : count = 0
    · rw [hz hc, hc]
      norm_num
    · field_simp
  | cons p rest ih =>
    intro mean count h hc hz
    obtain ⟨value, amount⟩ := p
    have hamount : 0 ≤ amount := h (value, amount) (List.mem_cons_self _ _)
    have hrest : ∀ q ∈ rest, 0 ≤ q.2 :=
      fun q hq => h q (List.mem_cons_of_mem _ hq)
    rw [sampleMeanGo]
    have hc' : 0 ≤ count + amount := by linarith
    have hz' : count + amount = 0 →
        mean + amount * (value - mean) / (count + amount) = 0 := by
      intro h0
      have hcz : count = 0 := by linarith
      have haz : amount = 0 := by linarith
      rw [hz hcz, haz]
      norm_num
    rw [ih _ _ hrest hc' hz', wsum_cons, sizeSum_cons]
    have hnum : (mean + amount * (value - mean) / (count + amount)) * (count + amount)
        = mean * count + amount * value := by
      by_cases h0 : count + amount = 0
      · have hcz : count = 0 := by linarith
        have haz : amount = 0 := by linarith
        rw [hz hcz, hcz, haz]
        norm_num
      · field_simp
        ring
    rw [hnum]
    ring_nf

/-- For non-negative weights the incremental mean equals the ratio of sums
(`x / 0 = 0` makes this hold even for zero total weight). -/
lemma sampleMean_eq_ratio (l : List (ℚ × ℚ)) (h : ∀ p ∈ l, 0 ≤ p.2) :
    sampleMean l = wsum l / sizeSum l := by
  rw [sampleMean, sampleMeanGo_spec l 0 0 h le_rfl (fun _ => rfl)]
  norm_num

/-- Modelled from the spec: the Distribution Quantile Provider
(`boost::math::quantile` with `boost::math::normal`, not part of src).  Per
§4.3 it fails with a DomainError when the probability lies outside `(0,1)`;
the quantile value itself is an abstract parameter `nq`. -/
def normalQuantile (nq : ℚ → ℚ) (p : ℚ) : Except RunError ℚ :=
  if p ≤ 0 ∨ 1 ≤ p then .error .domainError else .ok (nq p)

/-- Modelled from the spec: Student's t quantile (`boost::math::students_t`,
not part of src).  Per §4.3 it fails with a DomainError when
`degreesOfFreedom ≤ 0` or the probability lies outside `(0,1)`. -/
def studentTQuantile (tq : ℚ → ℚ → ℚ) (degreesOfFreedom p : ℚ) : Except RunError ℚ :=
  if degreesOfFreedom ≤ 0 ∨ p ≤ 0 ∨ 1 ≤ p then .error .domainError
  else .ok (tq degreesOfFreedom p)

/-- Modelled from the spec: Chi-squared quantile (`boost::math::chi_squared`,
not part of src).  Per §4.3 it fails with a DomainError when
`degreesOfFreedom ≤ 0` or the probability lies outside `(0,1)`. -/
def chiSquaredQuantile (cq : ℚ → ℚ → ℚ) (degreesOfFreedom p : ℚ) : Except RunError ℚ :=
  if degreesOfFreedom ≤ 0 ∨ p ≤ 0 ∨ 1 ≤ p then .error .domainError
  else .ok (cq degreesOfFreedom p)

/-- Source function `meanConfidenceIntervalWithKnownVariance` (lines 75–81); `std::sqrt` is the
abstract parameter `sq`.  The function performs no validation of its own: any
failure comes from the normal quantile call. -/
def meanConfidenceIntervalWithKnownVariance (nq sq : ℚ → ℚ)
    (size statMean variance confidence : ℚ) : Except RunError (ℚ × ℚ) :=
  match normalQuantile nq ((confidence + 1) / 2) with
  | .error e => .error e
  | .ok quantile =>
      let epsilon := sq (variance / size) * quantile
      .ok (statMean - epsilon, statMean + epsilon)

/-- Source function `meanConfidenceIntervalWithUnknownVariance` (lines 83–89): Student's t
quantile with `size - 1` degrees of freedom. -/
def meanConfidenceIntervalWithUnknownVariance (tq : ℚ → ℚ → ℚ) (sq : ℚ → ℚ)
    (size statMean statUnbiasedVariance confidence : ℚ) : Except RunError (ℚ × ℚ) :=
  match studentTQuantile tq (size - 1) ((confidence + 1) / 2) with
  | .error e => .error e
  | .ok quantile =>
      let epsilon := sq (statUnbiasedVariance / size) * quantile
      .ok (statMean - epsilon, statMean + epsilon)

/-- Source function `varianceConfidenceInterval` (lines 92–98): two Chi-squared quantiles at
`(1+confidence)/2` and `(1-confidence)/2`; the estimator is divided by the
larger-tail quantile for the lower bound and by the smaller-tail quantile for
the upper bound. -/
def varianceConfidenceInterval (cq : ℚ → ℚ → ℚ)
    (size statUnbiasedVariance confidence : ℚ) : Except RunError (ℚ × ℚ) :=
  match chiSquaredQuantile cq (size - 1) ((1 + confidence) / 2) with
  | .error e => .error e
  | .ok chi1 =>
      match chiSquaredQuantile cq (size - 1) ((1 - confidence) / 2) with
      | .error e => .error e
      | .ok chi2 =>
          .ok (statUnbiasedVariance * (size - 1) / chi1,
               statUnbiasedVariance * (size - 1) / chi2)

/-- Bias conversion, biased → unbiased (line 147): multiply by `n/(n-1)`. -/
def unbiasedFromBiased (biased n : ℚ) : ℚ :=
  biased * n / (n - 1)

/-- Bias conversion, unbiased → biased (line 149): multiply by `(n-1)/n`. -/
def biasedFromUnbiased (unbiased n : ℚ) : ℚ :=
  unbiased * (n - 1) / n

/-- The params JSON object: externally supplied ground-truth values; absent
keys are `none`. -/
structure Params where
  sampleSize : Option ℚ
  mean : Option ℚ
  variance : Option ℚ
  standardDeviation : Option ℚ
deriving DecidableEq

/-- The statistics JSON object: computed values; absent keys are `none`. -/
structure Statistics where
  mean : Option ℚ
  biasedVariance : Option ℚ
  unbiasedVariance : Option ℚ
  biasedStandardDeviation : Option ℚ
  unbiasedStandardDeviation : Option ℚ
deriving DecidableEq

/-- A loaded sample JSON document: one of two dataset forms (`values` as raw
numbers, `variationalSeries` already parsed into (value, frequency) pairs), the
`params` and `statistics` objects, the confidence level, and the three
interval-request flags. -/
structure Sample where
  values : Option (List ℚ)
  variationalSeries : Option (List (ℚ × ℚ))
  params : Params
  statistics : Statistics
  confidence : Option ℚ
  meanCIKnownVarianceFlag : Bool
  meanCIUnknownVarianceFlag : Bool
  varianceCIFlag : Bool
deriving DecidableEq

/-- The two-argument `calculateStatistics` overload (lines 124–131): store the
incremental mean and biased variance in `statistics`, and the realized sample
size in `params.sampleSize`. -/
def calculateStatisticsOn (s : Sample) (varSeries : List (ℚ × ℚ)) : Sample :=
  { s with
    statistics := { s.statistics with
      mean := some (sampleMean varSeries),
      biasedVariance := some (biasedSampleVariance varSeries) },
    params := { s.params with sampleSize := some (sampleSize varSeries) } }

/-- Lines 146–150: if a biased variance is present, derive the unbiased one
from it; otherwise, if an unbiased variance is present, derive the biased one;
otherwise leave both absent. -/
def biasConvert (n : ℚ) (st : Statistics) : Statistics :=
  match st.biasedVariance, st.unbiasedVariance with
  | some b, _ => { st with unbiasedVariance := some (unbiasedFromBiased b n) }
  | none, some u => { st with biasedVariance := some (biasedFromUnbiased u n) }
  | none, none => st

/-- Lines 152–155: if a biased variance is present, set both standard
deviations to the square roots of the two variances (`std::sqrt` is the
abstract parameter `sq`); reading an absent `unbiasedVariance` as a number
fails. -/
def addStdDevs (sq : ℚ → ℚ) (st : Statistics) : Except RunError Statistics :=
  match st.biasedVariance with
  | some b =>
      match st.unbiasedVariance with
      | some u =>
          .ok { st with
            biasedStandardDeviation := some (sq b),
            unbiasedStandardDeviation := some (sq u) }
      | none => .error .missingData
  | none => .ok st

/-- The tail of the one-argument `calculateStatistics` (lines 145–155): read
the realized sample size (line 145 fails when `params.sampleSize` was never
set), convert bias, and fill in the standard deviations. -/
def finishStats (sq : ℚ → ℚ) (s1 : Sample) : Except RunError Sample :=
  match s1.params.sampleSize with
  | none => .error .missingData
  | some n =>
      match addStdDevs sq (biasConvert n s1.statistics) with
      | .ok st => .ok { s1 with statistics := st }
      | .error e => .error e

/-- The one-argument `calculateStatistics` (lines 133–156): normalize the
dataset form into a weighted series and accumulate, then finish with the
sample-size read, bias conversion and standard deviations. -/
def calculateStatistics (sq : ℚ → ℚ) (s : Sample) : Except RunError Sample :=
  finishStats sq
    (match s.values with
     | some vs => calculateStatisticsOn s (makeVarSeries vs)
     | none =>
         match s.variationalSeries with
         | some vs => calculateStatisticsOn s vs
         | none => s)

/-- The first interval block of `main` (lines 186–195): when its flag is set,
read sample size, mean, the `params.variance` parameter and the confidence
(each read of an absent field yields JSON `null`, whose numeric conversion
fails — the MissingData error of §7) and compute the known-variance mean
interval. -/
def knownVarianceBlock (nq sq : ℚ → ℚ) (s : Sample) :
    Except RunError (Option (ℚ × ℚ)) :=
  if s.meanCIKnownVarianceFlag then
    match s.params.sampleSize with
    | none => .error .missingData
    | some size =>
        match s.statistics.mean with
        | none => .error .missingData
        | some statMean =>
            match s.params.variance with
            | none => .error .missingData
            | some variance =>
                match s.confidence with
                | none => .error .missingData
                | some confidence =>
                    match meanConfidenceIntervalWithKnownVariance nq sq size
                        statMean variance confidence with
                    | .error e => .error e
                    | .ok interval => .ok (some interval)
  else .ok none

/-- The second interval block of `main` (lines 197–206): when its flag is set,
read sample size, mean, the computed `statistics.unbiasedVariance` and the
confidence, and compute the unknown-variance mean interval. -/
def unknownVarianceBlock (tq : ℚ → ℚ → ℚ) (sq : ℚ → ℚ) (s : Sample) :
    Except RunError (Option (ℚ × ℚ)) :=
  if s.meanCIUnknownVarianceFlag then
    match s.params.sampleSize with
    | none => .error .missingData
    | some size =>
        match s.statistics.mean with
        | none => .error .missingData
        | some statMean =>
            match s.statistics.unbiasedVariance with
            | none => .error .missingData
            | some statUnbiasedVariance =>
                match s.confidence with
                | none => .error .missingData
                | some confidence =>
                    match meanConfidenceIntervalWithUnknownVariance tq sq size
                        statMean statUnbiasedVariance confidence with
                    | .error e => .error e
                    | .ok interval => .ok (some interval)
  else .ok none

/-- The third interval block of `main` (lines 208–216): when its flag is set,
read sample size, the computed `statistics.unbiasedVariance` and the
confidence, and compute the variance interval. -/
def varianceBlock (cq : ℚ → ℚ → ℚ) (s : Sample) :
    Except RunError (Option (ℚ × ℚ)) :=
  if s.varianceCIFlag then
    match s.params.sampleSize with
    | none => .error .missingData
    | some size =>
        match s.statistics.unbiasedVariance with
        | none => .error .missingData
        | some statUnbiasedVariance =>
            match s.confidence with
            | none => .error .missingData
            | some confidence =>
                match varianceConfidenceInterval cq size
                    statUnbiasedVariance confidence with
                | .error e => .error e
                | .ok interval => .ok (some interval)
  else .ok none

/-- The interval-reporting section of `main` (lines 186–216): the three blocks
run in order; an uncaught error in one aborts the run. -/
def runIntervals (nq : ℚ → ℚ) (tq cq : ℚ → ℚ → ℚ) (sq : ℚ → ℚ) (s : Sample) :
    Except RunError (Option (ℚ × ℚ) × Option (ℚ × ℚ) × Option (ℚ × ℚ)) :=
  match knownVarianceBlock nq sq s with
  | .error e => .error e
  | .ok i1 =>
      match unknownVarianceBlock tq sq s with
      | .error e => .error e
      | .ok i2 =>
          match varianceBlock cq s with
          | .error e => .error e
          | .ok i3 => .ok (i1, i2, i3)

/-- A frequency table with natural-number frequencies, as a weighted series. -/
def tableToVarSeries (table : List (ℚ × ℕ)) : List (ℚ × ℚ) :=
  table.map (fun p => (p.1, (p.2 : ℚ)))

/-- The raw-values dataset that repeats each value of a frequency table
according to its frequency. -/
def rawOfTable (table : List (ℚ × ℕ)) : List ℚ :=
  (table.map (fun p => List.replicate p.2 p.1)).flatten

lemma makeVarSeries_weight_nonneg (xs : List ℚ) :
    ∀ p ∈ makeVarSeries xs, 0 ≤ p.2 := by
  intro p hp
  simp only [makeVarSeries, List.mem_map] at hp
  obtain ⟨v, _, rfl⟩ := hp
  norm_num

lemma tableToVarSeries_weight_nonneg (t : List (ℚ × ℕ)) :
    ∀ p ∈ tableToVarSeries t, 0 ≤ p.2 := by
  intro p hp
  simp only [tableToVarSeries, List.mem_map] at hp
  obtain ⟨q, _, rfl⟩ := hp
  exact Nat.cast_nonneg q.2

lemma map_weight_nonneg (l : List (ℚ × ℚ)) (f : ℚ × ℚ → ℚ)
    (h : ∀ p ∈ l, 0 ≤ p.2) :
    ∀ p ∈ l.map (fun p => (f p, p.2)), 0 ≤ p.2 := by
  intro p hp
  simp only [List.mem_map] at hp
  obtain ⟨q, hq, rfl⟩ := hp
  exact h q hq

lemma sizeSum_map (l : List (ℚ × ℚ)) (f : ℚ × ℚ → ℚ) :
    sizeSum (l.map (fun p => (f p, p.2))) = sizeSum l := by
  simp only [sizeSum, List.map_map]
  rfl

lemma wsum_map (l : List (ℚ × ℚ)) (f : ℚ × ℚ → ℚ) :
    wsum (l.map (fun p => (f p, p.2))) = (l.map (fun p => p.2 * f p)).sum := by
  simp only [wsum, List.map_map]
  rfl

/-- For non-negative weights the biased sample variance is the ratio
`Σ wᵢ·(vᵢ - mean)² / Σ wᵢ`. -/
lemma biasedSampleVariance_eq_ratio (l : List (ℚ × ℚ)) (h : ∀ p ∈ l, 0 ≤ p.2) :
    biasedSampleVariance l =
      (l.map (fun p => p.2 * (p.1 - sampleMean l) ^ 2)).sum / sizeSum l := by
  rw [biasedSampleVariance]
  rw [sampleMean_eq_ratio _ (map_weight_nonneg l _ h), wsum_map, sizeSum_map]

lemma sizeSum_perm {l l' : List (ℚ × ℚ)} (h : l.Perm l') :
    sizeSum l = sizeSum l' :=
  (h.map Prod.snd).sum_eq

lemma wsum_perm {l l' : List (ℚ × ℚ)} (h : l.Perm l') :
    wsum l = wsum l' :=
  (h.map (fun p : ℚ × ℚ => p.2 * p.1)).sum_eq

lemma sizeSum_makeVarSeries (xs : List ℚ) :
    sizeSum (makeVarSeries xs) = (xs.length : ℚ) := by
  induction xs with
  | nil => rfl
  | cons v rest ih =>
    simp only [makeVarSeries, List.map_cons] at ih ⊢
    rw [sizeSum_cons, ih, List.length_cons]
    push_cast
    ring

lemma wsum_makeVarSeries (xs : List ℚ) :
    wsum (makeVarSeries xs) = xs.sum := by
  induction xs with
  | nil => rfl
  | cons v rest ih =>
    simp only [makeVarSeries, List.map_cons] at ih ⊢
    rw [wsum_cons, ih, List.sum_cons]
    ring

lemma rawOfTable_length (t : List (ℚ × ℕ)) :
    ((rawOfTable t).length : ℚ) = sizeSum (tableToVarSeries t) := by
  induction t with
  | nil => rfl
  | cons p rest ih =>
    simp only [rawOfTable, tableToVarSeries, List.map_cons, List.flatten_cons] at ih ⊢
    rw [List.length_append, List.length_replicate, sizeSum_cons]
    push_cast
    rw [ih]

lemma rawOfTable_sum (t : List (ℚ × ℕ)) :
    (rawOfTable t).sum = wsum (tableToVarSeries t) := by
  induction t with
  | nil => rfl
  | cons p rest ih =>
    simp only [rawOfTable, tableToVarSeries, List.map_cons, List.flatten_cons] at ih ⊢
    rw [List.sum_append, List.sum_replicate, wsum_cons, ih, nsmul_eq_mul]

lemma rawOfTable_map (t : List (ℚ × ℕ)) (g : ℚ → ℚ) :
    (rawOfTable t).map g = rawOfTable (t.map (fun p => (g p.1, p.2))) := by
  induction t with
  | nil => rfl
  | cons p rest ih =>
    simp only [rawOfTable, List.map_cons, List.flatten_cons, List.map_append,
      List.map_replicate] at ih ⊢
    rw [ih]

/-- Expanding a frequency table into repeated raw values preserves the
realized sample size. -/
lemma expand_sampleSize (t : List (ℚ × ℕ)) :
    sampleSize (makeVarSeries (rawOfTable t)) = sampleSize (tableToVarSeries t) := by
  rw [sampleSize_eq_sizeSum, sampleSize_eq_sizeSum, sizeSum_makeVarSeries,
    rawOfTable_length]

/-- Expanding a frequency table into repeated raw values preserves the
incremental mean. -/
lemma expand_sampleMean (t : List (ℚ × ℕ)) :
    sampleMean (makeVarSeries (rawOfTable t)) = sampleMean (tableToVarSeries t) := by
  rw [sampleMean_eq_ratio _ (makeVarSeries_weight_nonneg _),
    sampleMean_eq_ratio _ (tableToVarSeries_weight_nonneg _),
    wsum_makeVarSeries, sizeSum_makeVarSeries, rawOfTable_length, rawOfTable_sum]

/-- Expanding a frequency table into repeated raw values preserves the biased
sample variance. -/
lemma expand_biasedSampleVariance (t : List (ℚ × ℕ)) :
    biasedSampleVariance (makeVarSeries (rawOfTable t)) =
      biasedSampleVariance (tableToVarSeries t) := by
  rw [biasedSampleVariance, biasedSampleVariance, expand_sampleMean t]
  have hmapraw : (makeVarSeries (rawOfTable t)).map
      (fun p => ((p.1 - sampleMean (tableToVarSeries t)) ^ 2, p.2)) =
        makeVarSeries ((rawOfTable t).map
          (fun v => (v - sampleMean (tableToVarSeries t)) ^ 2)) := by
    simp [makeVarSeries, List.map_map, Function.comp]
  have hmaptable : (tableToVarSeries t).map
      (fun p => ((p.1 - sampleMean (tableToVarSeries t)) ^ 2, p.2)) =
        tableToVarSeries (t.map
          (fun p => ((p.1 - sampleMean (tableToVarSeries t)) ^ 2, p.2))) := by
    simp [tableToVarSeries, List.map_map, Function.comp]
  rw [hmapraw, hmaptable, rawOfTable_map]
  exact expand_sampleMean (t.map (fun p => ((p.1 - sampleMean (tableToVarSeries t)) ^ 2, p.2)))

lemma calculateStatistics_values (sq : ℚ → ℚ) (s : Sample) (vs : List ℚ)
    (h : s.values = some vs) :
    calculateStatistics sq s = finishStats sq (calculateStatisticsOn s (makeVarSeries vs)) := by
  rw [calculateStatistics, h]

lemma calculateStatistics_series (sq : ℚ → ℚ) (s : Sample) (vs : List (ℚ × ℚ))
    (hval : s.values = none) (h : s.variationalSeries = some vs) :
    calculateStatistics sq s = finishStats sq (calculateStatisticsOn s vs) := by
  rw [calculateStatistics, hval, h]

lemma calculateStatistics_noData (sq : ℚ → ℚ) (s : Sample)
    (hval : s.values = none) (h : s.variationalSeries = none) :
    calculateStatistics sq s = finishStats sq s := by
  rw [calculateStatistics, hval, h]

/-- Helper fact: `finishStats` reads only `params` and `statistics`; its statistics and
sample-size outputs agree on samples agreeing there. -/
lemma finishStats_proj (sq : ℚ → ℚ) (a b : Sample)
    (hp : a.params = b.params) (hst : a.statistics = b.statistics) :
    Except.map Sample.statistics (finishStats sq a) =
      Except.map Sample.statistics (finishStats sq b) ∧
    Except.map (fun t => t.params.sampleSize) (finishStats sq a) =
      Except.map (fun t => t.params.sampleSize) (finishStats sq b) := by
  rw [finishStats, finishStats, hp, hst]
  cases b.params.sampleSize with
  | none => exact ⟨rfl, rfl⟩
  | some n =>
    cases hz : addStdDevs sq (biasConvert n b.statistics) with
    | error e => simp [hz, Except.map]
    | ok st => simp [hz, Except.map, hp]

/-- The bias-conversion / standard-deviation tail on an explicit statistics
record: a successful result has biased and unbiased variance present together,
and then both standard deviations set to their square roots. -/
lemma addStdDevs_biasConvert_ok (sq : ℚ → ℚ) (n : ℚ) (st st' : Statistics)
    (h : addStdDevs sq (biasConvert n st) = .ok st') :
    (st'.biasedVariance.isSome ↔ st'.unbiasedVariance.isSome) ∧
    ∀ b u, st'.biasedVariance = some b → st'.unbiasedVariance = some u →
      st'.biasedStandardDeviation = some (sq b) ∧
      st'.unbiasedStandardDeviation = some (sq u) := by
  obtain ⟨m0, bv, uv, bsd, usd⟩ := st
  cases bv with
  | some b0 =>
    have h2 : addStdDevs sq (biasConvert n ⟨m0, some b0, uv, bsd, usd⟩) =
        .ok ⟨m0, some b0, some (unbiasedFromBiased b0 n),
             some (sq b0), some (sq (unbiasedFromBiased b0 n))⟩ := rfl
    rw [h2] at h
    injection h with h
    rw [← h]
    refine ⟨by simp, ?_⟩
    intro b u hbe hue
    injection hbe with hbe
    injection hue with hue
    rw [← hbe, ← hue]
    exact ⟨rfl, rfl⟩
  | none =>
    cases uv with
    | some u0 =>
      have h2 : addStdDevs sq (biasConvert n ⟨m0, none, some u0, bsd, usd⟩) =
          .ok ⟨m0, some (biasedFromUnbiased u0 n), some u0,
               some (sq (biasedFromUnbiased u0 n)), some (sq u0)⟩ := rfl
      rw [h2] at h
      injection h with h
      rw [← h]
      refine ⟨by simp, ?_⟩
      intro b u hbe hue
      injection hbe with hbe
      injection hue with hue
      rw [← hbe, ← hue]
      exact ⟨rfl, rfl⟩
    | none =>
      have h2 : addStdDevs sq (biasConvert n ⟨m0, none, none, bsd, usd⟩) =
          .ok ⟨m0, none, none, bsd, usd⟩ := rfl
      rw [h2] at h
      injection h with h
      rw [← h]
      refine ⟨by simp, ?_⟩
      intro b u hbe _
      exact absurd hbe (by simp)

/-- Any successful `finishStats` output satisfies the variance/standard
deviation presence invariant. -/
lemma finishStats_ok (sq : ℚ → ℚ) (a s' : Sample)
    (h : finishStats sq a = .ok s') :
    (s'.statistics.biasedVariance.isSome ↔ s'.statistics.unbiasedVariance.isSome) ∧
    ∀ b u, s'.statistics.biasedVariance = some b →
      s'.statistics.unbiasedVariance = some u →
      s'.statistics.biasedStandardDeviation = some (sq b) ∧
      s'.statistics.unbiasedStandardDeviation = some (sq u) := by
  rw [finishStats] at h
  split at h
  · exact absurd h (by simp)
  · rename_i n hn
    split at h
    · rename_i st hz
      injection h with h
      have hst : s'.statistics = st := by rw [← h]
      rw [hst]
      exact addStdDevs_biasConvert_ok sq n a.statistics st hz
    · exact absurd h (by simp)

/-- C1: for every finite sequence of weighted observations with non-negative
weights and positive total weight, the incremental update
`mean ← mean + weight*(value-mean)/cumulativeWeight` computes exactly the
weighted arithmetic mean `Σ wᵢvᵢ / Σ wᵢ`, and `sampleSize` is the sum of the
weights. -/
theorem sampleMean_is_weighted_mean (l : List (ℚ × ℚ))
    (hw : ∀ p ∈ l, 0 ≤ p.2) (_hpos : 0 < sizeSum l) :
    sampleMean l = wsum l / sizeSum l ∧ sampleSize l = sizeSum l :=
  ⟨sampleMean_eq_ratio l hw, sampleSize_eq_sizeSum l⟩

/-- Witness for C1 on the sequence `[(1, 2), (3, 4)]`. -/
theorem sampleMean_is_weighted_mean_witness :
    (∀ p ∈ [((1 : ℚ), (2 : ℚ)), (3, 4)], 0 ≤ p.2) ∧
    0 < sizeSum [((1 : ℚ), (2 : ℚ)), (3, 4)] ∧
    (sampleMean [((1 : ℚ), (2 : ℚ)), (3, 4)] =
        wsum [((1 : ℚ), (2 : ℚ)), (3, 4)] / sizeSum [((1 : ℚ), (2 : ℚ)), (3, 4)] ∧
      sampleSize [((1 : ℚ), (2 : ℚ)), (3, 4)] = sizeSum [((1 : ℚ), (2 : ℚ)), (3, 4)]) :=
  ⟨by norm_num, by norm_num [sizeSum],
    sampleMean_is_weighted_mean [((1 : ℚ), (2 : ℚ)), (3, 4)] (by norm_num)
      (by norm_num [sizeSum])⟩

/-- C6: for every sample size `n > 1`, converting a biased variance to the
unbiased one by `· * n/(n-1)` and back by `· * (n-1)/n` returns the original
value exactly over the rationals. -/
theorem bias_conversion_roundTrip (n v : ℚ) (h : 1 < n) :
    biasedFromUnbiased (unbiasedFromBiased v n) n = v := by
  have h0 : n ≠ 0 := ne_of_gt (by linarith)
  have h1 : n - 1 ≠ 0 := sub_ne_zero.mpr (ne_of_gt h)
  rw [unbiasedFromBiased, biasedFromUnbiased]
  field_simp

/-- Witness for C6 at `n = 2`, `v = 3`. -/
theorem bias_conversion_roundTrip_witness :
    (1 : ℚ) < 2 ∧ biasedFromUnbiased (unbiasedFromBiased 3 2) 2 = 3 :=
  ⟨by norm_num, bias_conversion_roundTrip 2 3 (by norm_num)⟩

/-- C7: for every weighted sequence with non-negative weights and positive
total weight and every permutation of it, `sampleSize`, `sampleMean` and
`biasedSampleVariance` are unchanged. -/
theorem statistics_perm_invariant (l l' : List (ℚ × ℚ)) (hperm : l.Perm l')
    (hw : ∀ p ∈ l, 0 ≤ p.2) (_hpos : 0 < sizeSum l) :
    sampleSize l' = sampleSize l ∧ sampleMean l' = sampleMean l ∧
      biasedSampleVariance l' = biasedSampleVariance l := by
  have hw' : ∀ p ∈ l', 0 ≤ p.2 := fun p hp => hw p (hperm.mem_iff.mpr hp)
  have hsz := sizeSum_perm hperm
  have hws := wsum_perm hperm
  have hm : sampleMean l' = sampleMean l := by
    rw [sampleMean_eq_ratio _ hw', sampleMean_eq_ratio _ hw, hsz, hws]
  refine ⟨?_, hm, ?_⟩
  · rw [sampleSize_eq_sizeSum, sampleSize_eq_sizeSum, hsz]
  · rw [biasedSampleVariance, biasedSampleVariance, hm]
    rw [sampleMean_eq_ratio _ (map_weight_nonneg l' _ hw'),
      sampleMean_eq_ratio _ (map_weight_nonneg l _ hw)]
    rw [wsum_map, wsum_map, sizeSum_map, sizeSum_map, hsz,
      (hperm.map (fun p : ℚ × ℚ => p.2 * (p.1 - sampleMean l) ^ 2)).sum_eq]

/-- Witness for C7: `[(1, 1), (2, 2)]` versus `[(2, 2), (1, 1)]`. -/
theorem statistics_perm_invariant_witness :
    sampleSize [((2 : ℚ), (2 : ℚ)), (1, 1)] = sampleSize [((1 : ℚ), (1 : ℚ)), (2, 2)] ∧
    sampleMean [((2 : ℚ), (2 : ℚ)), (1, 1)] = sampleMean [((1 : ℚ), (1 : ℚ)), (2, 2)] ∧
    biasedSampleVariance [((2 : ℚ), (2 : ℚ)), (1, 1)] =
      biasedSampleVariance [((1 : ℚ), (1 : ℚ)), (2, 2)] :=
  statistics_perm_invariant [((1 : ℚ), (1 : ℚ)), (2, 2)] [((2 : ℚ), (2 : ℚ)), (1, 1)]
    (List.Perm.swap ((2 : ℚ), (2 : ℚ)) ((1 : ℚ), (1 : ℚ)) []) (by norm_num)
    (by norm_num [sizeSum])

/-- C9: on the empty sequence of weighted observations, `sampleSize` and
`sampleMean` both return `0` (the loops simply do not run). -/
theorem empty_sample_stats :
    sampleSize ([] : List (ℚ × ℚ)) = 0 ∧ sampleMean ([] : List (ℚ × ℚ)) = 0 :=
  ⟨rfl, rfl⟩

/-- C3: for `n > 1`, `V > 0` and confidence in `(0,1)`, the variance
confidence interval is exactly
`(V*(n-1)/χ²(n-1, (1+c)/2), V*(n-1)/χ²(n-1, (1-c)/2))`; the smaller-tail
quantile `(1-c)/2` produces the upper bound. -/
theorem varianceCI_formula (cq : ℚ → ℚ → ℚ) (n v conf : ℚ)
    (hn : 1 < n) (_hv : 0 < v) (hc0 : 0 < conf) (hc1 : conf < 1) :
    varianceConfidenceInterval cq n v conf =
      .ok (v * (n - 1) / cq (n - 1) ((1 + conf) / 2),
           v * (n - 1) / cq (n - 1) ((1 - conf) / 2)) := by
  have h1 : ¬(n - 1 ≤ 0 ∨ (1 + conf) / 2 ≤ 0 ∨ 1 ≤ (1 + conf) / 2) := by
    push_neg
    exact ⟨by linarith, by linarith, by linarith⟩
  have h2 : ¬(n - 1 ≤ 0 ∨ (1 - conf) / 2 ≤ 0 ∨ 1 ≤ (1 - conf) / 2) := by
    push_neg
    exact ⟨by linarith, by linarith, by linarith⟩
  rw [varianceConfidenceInterval, chiSquaredQuantile, chiSquaredQuantile,
    if_neg h1, if_neg h2]

/-- Witness for C3 at `cq df p = df + p`, `n = 2`, `V = 1`, `conf = 1/2`. -/
theorem varianceCI_formula_witness :
    varianceConfidenceInterval (fun df p => df + p) 2 1 (1 / 2) =
      .ok (1 * (2 - 1) / ((2 - 1) + (1 + 1 / 2) / 2),
           1 * (2 - 1) / ((2 - 1) + (1 - 1 / 2) / 2)) :=
  varianceCI_formula (fun df p => df + p) 2 1 (1 / 2)
    (by norm_num) (by norm_num) (by norm_num) (by norm_num)

/-- C4: for any sample size and mean, `V ≥ 0` and confidence in `(0,1)`, the
known-variance mean interval is `(m - ε, m + ε)` with
`ε = sqrt(V/n) * Φ⁻¹((c+1)/2)`; in particular its midpoint is the mean. -/
theorem meanCI_knownVariance_formula (nq sq : ℚ → ℚ) (n m v conf : ℚ)
    (_hv : 0 ≤ v) (hc0 : 0 < conf) (hc1 : conf < 1) :
    meanConfidenceIntervalWithKnownVariance nq sq n m v conf =
      .ok (m - sq (v / n) * nq ((conf + 1) / 2),
           m + sq (v / n) * nq ((conf + 1) / 2)) ∧
    (m - sq (v / n) * nq ((conf + 1) / 2) +
      (m + sq (v / n) * nq ((conf + 1) / 2))) / 2 = m := by
  have h1 : ¬((conf + 1) / 2 ≤ 0 ∨ 1 ≤ (conf + 1) / 2) := by
    push_neg
    exact ⟨by linarith, by linarith⟩
  constructor
  · rw [meanConfidenceIntervalWithKnownVariance, normalQuantile, if_neg h1]
  · ring

/-- Witness for C4 at `nq = id`, `sq = id`, `n = 8`, `m = 5`, `V = 2`,
`conf = 1/2`. -/
theorem meanCI_knownVariance_formula_witness :
    meanConfidenceIntervalWithKnownVariance id id 8 5 2 (1 / 2) =
      .ok (5 - id ((2 : ℚ) / 8) * id (((1 : ℚ) / 2 + 1) / 2),
           5 + id ((2 : ℚ) / 8) * id (((1 : ℚ) / 2 + 1) / 2)) ∧
    (5 - id ((2 : ℚ) / 8) * id (((1 : ℚ) / 2 + 1) / 2) +
      (5 + id ((2 : ℚ) / 8) * id (((1 : ℚ) / 2 + 1) / 2))) / 2 = 5 :=
  meanCI_knownVariance_formula id id 8 5 2 (1 / 2)
    (by norm_num) (by norm_num) (by norm_num)

/-- Counterexample to C5: the known-variance mean interval performs no sample
size validation, so at `n = 1` (with a valid confidence `1/2`) it succeeds
instead of failing with a DomainError. -/
theorem knownVarianceCI_succeeds_at_n_one :
    meanConfidenceIntervalWithKnownVariance id id 1 0 1 (1 / 2) =
      .ok (-(id (1 : ℚ) * id (3 / 4)), id (1 : ℚ) * id (3 / 4)) := by
  have h1 : ¬(((1 : ℚ) / 2 + 1) / 2 ≤ 0 ∨ 1 ≤ ((1 : ℚ) / 2 + 1) / 2) := by
    push_neg
    constructor <;> norm_num
  rw [meanConfidenceIntervalWithKnownVariance, normalQuantile, if_neg h1]
  norm_num

/-- C5 amended: only quantile-domain validation happens.  The unknown-variance
mean interval and the variance interval fail with a DomainError whenever
`n ≤ 1` (in particular for `n = 1`); all three fail when the confidence lies
outside `(-1, 1)`; but the known-variance mean interval never inspects the
sample size and succeeds for every confidence in `(-1, 1)` — so confidence in
`(0,1)` and `n > 1` are not themselves enforced. -/
theorem confidenceInterval_domain_checks (nq : ℚ → ℚ) (tq cq : ℚ → ℚ → ℚ)
    (sq : ℚ → ℚ) (n m v conf : ℚ) :
    (n ≤ 1 →
      meanConfidenceIntervalWithUnknownVariance tq sq n m v conf = .error .domainError ∧
      varianceConfidenceInterval cq n v conf = .error .domainError) ∧
    (1 ≤ conf ∨ conf ≤ -1 →
      meanConfidenceIntervalWithKnownVariance nq sq n m v conf = .error .domainError ∧
      meanConfidenceIntervalWithUnknownVariance tq sq n m v conf = .error .domainError ∧
      varianceConfidenceInterval cq n v conf = .error .domainError) ∧
    (-1 < conf → conf < 1 →
      ∃ r, meanConfidenceIntervalWithKnownVariance nq sq n m v conf = .ok r) := by
  refine ⟨?_, ?_, ?_⟩
  · intro hn
    constructor
    · rw [meanConfidenceIntervalWithUnknownVariance, studentTQuantile,
        if_pos (Or.inl (by linarith))]
    · rw [varianceConfidenceInterval, chiSquaredQuantile,
        if_pos (Or.inl (by linarith))]
  · intro hc
    rcases hc with hc | hc
    · refine ⟨?_, ?_, ?_⟩
      · rw [meanConfidenceIntervalWithKnownVariance, normalQuantile,
          if_pos (Or.inr (by linarith))]
      · rw [meanConfidenceIntervalWithUnknownVariance, studentTQuantile,
          if_pos (Or.inr (Or.inr (by linarith)))]
      · rw [varianceConfidenceInterval, chiSquaredQuantile,
          if_pos (Or.inr (Or.inr (by linarith)))]
    · refine ⟨?_, ?_, ?_⟩
      · rw [meanConfidenceIntervalWithKnownVariance, normalQuantile,
          if_pos (Or.inl (by linarith))]
      · rw [meanConfidenceIntervalWithUnknownVariance, studentTQuantile,
          if_pos (Or.inr (Or.inl (by linarith)))]
      · rw [varianceConfidenceInterval, chiSquaredQuantile,
          if_pos (Or.inr (Or.inl (by linarith)))]
  · intro hc0 hc1
    have h1 : ¬((conf + 1) / 2 ≤ 0 ∨ 1 ≤ (conf + 1) / 2) := by
      push_neg
      exact ⟨by linarith, by linarith⟩
    refine ⟨(m - sq (v / n) * nq ((conf + 1) / 2),
      m + sq (v / n) * nq ((conf + 1) / 2)), ?_⟩
    rw [meanConfidenceIntervalWithKnownVariance, normalQuantile, if_neg h1]

/-- Witness for the amended C5: at `n = 1` the unknown-variance and variance
intervals fail, at `conf = 2` all fail, and the known-variance interval
succeeds at `n = 1`, `conf = 1/2`. -/
theorem confidenceInterval_domain_checks_witness :
    (meanConfidenceIntervalWithUnknownVariance (fun _ p => p) id 1 0 1 (1 / 2) =
        .error .domainError ∧
      varianceConfidenceInterval (fun _ p => p) 1 1 (1 / 2) = .error .domainError) ∧
    (meanConfidenceIntervalWithKnownVariance id id 2 0 1 2 = .error .domainError ∧
      meanConfidenceIntervalWithUnknownVariance (fun _ p => p) id 2 0 1 2 =
        .error .domainError ∧
      varianceConfidenceInterval (fun _ p => p) 2 1 2 = .error .domainError) ∧
    (∃ r, meanConfidenceIntervalWithKnownVariance id id 1 0 1 (1 / 2) = .ok r) :=
  ⟨(confidenceInterval_domain_checks id (fun _ p => p) (fun _ p => p) id 1 0 1 (1 / 2)).1
      (by norm_num),
   (confidenceInterval_domain_checks id (fun _ p => p) (fun _ p => p) id 2 0 1 2).2.1
      (Or.inl (by norm_num)),
   (confidenceInterval_domain_checks id (fun _ p => p) (fun _ p => p) id 1 0 1 (1 / 2)).2.2
      (by norm_num) (by norm_num)⟩

lemma knownVarianceBlock_off (nq sq : ℚ → ℚ) (s : Sample)
    (hf : s.meanCIKnownVarianceFlag = false) :
    knownVarianceBlock nq sq s = .ok none := by
  rw [knownVarianceBlock, hf]
  simp

lemma unknownVarianceBlock_off (tq : ℚ → ℚ → ℚ) (sq : ℚ → ℚ) (s : Sample)
    (hf : s.meanCIUnknownVarianceFlag = false) :
    unknownVarianceBlock tq sq s = .ok none := by
  rw [unknownVarianceBlock, hf]
  simp

lemma knownVarianceBlock_missing (nq sq : ℚ → ℚ) (s : Sample)
    (hf : s.meanCIKnownVarianceFlag = true)
    (hm : s.params.sampleSize = none ∨ s.statistics.mean = none ∨
      s.params.variance = none ∨ s.confidence = none) :
    knownVarianceBlock nq sq s = .error .missingData := by
  rw [knownVarianceBlock, hf, if_pos rfl]
  rcases hm with h | h | h | h
  · rw [h]
  · cases hss : s.params.sampleSize with
    | none => rfl
    | some size => rw [h]
  · cases hss : s.params.sampleSize with
    | none => rfl
    | some size =>
      cases hsm : s.statistics.mean with
      | none => rfl
      | some statMean => rw [h]
  · cases hss : s.params.sampleSize with
    | none => rfl
    | some size =>
      cases hsm : s.statistics.mean with
      | none => rfl
      | some statMean =>
        cases hsv : s.params.variance with
        | none => rfl
        | some variance => rw [h]

lemma unknownVarianceBlock_missing (tq : ℚ → ℚ → ℚ) (sq : ℚ → ℚ) (s : Sample)
    (hf : s.meanCIUnknownVarianceFlag = true)
    (hm : s.params.sampleSize = none ∨ s.statistics.mean = none ∨
      s.statistics.unbiasedVariance = none ∨ s.confidence = none) :
    unknownVarianceBlock tq sq s = .error .missingData := by
  rw [unknownVarianceBlock, hf, if_pos rfl]
  rcases hm with h | h | h | h
  · rw [h]
  · cases hss : s.params.sampleSize with
    | none => rfl
    | some size => rw [h]
  · cases hss : s.params.sampleSize with
    | none => rfl
    | some size =>
      cases hsm : s.statistics.mean with
      | none => rfl
      | some statMean => rw [h]
  · cases hss : s.params.sampleSize with
    | none => rfl
    | some size =>
      cases hsm : s.statistics.mean with
      | none => rfl
      | some statMean =>
        cases hsv : s.statistics.unbiasedVariance with
        | none => rfl
        | some statUnbiasedVariance => rw [h]

lemma varianceBlock_missing (cq : ℚ → ℚ → ℚ) (s : Sample)
    (hf : s.varianceCIFlag = true)
    (hm : s.params.sampleSize = none ∨ s.statistics.unbiasedVariance = none ∨
      s.confidence = none) :
    varianceBlock cq s = .error .missingData := by
  rw [varianceBlock, hf, if_pos rfl]
  rcases hm with h | h | h
  · rw [h]
  · cases hss : s.params.sampleSize with
    | none => rfl
    | some size => rw [h]
  · cases hss : s.params.sampleSize with
    | none => rfl
    | some size =>
      cases hsv : s.statistics.unbiasedVariance with
      | none => rfl
      | some statUnbiasedVariance => rw [h]

/-- C8: when an interval is requested (its flag is true) but a prerequisite
statistic or parameter is absent — for the first requested block that runs —
the interval section of `main` raises MissingData; it never returns a result
(in particular never the silent interval `(0,0)`). -/
theorem missing_prerequisite_errors (nq : ℚ → ℚ) (tq cq : ℚ → ℚ → ℚ) (sq : ℚ → ℚ)
    (s : Sample)
    (h : (s.meanCIKnownVarianceFlag = true ∧
           (s.params.sampleSize = none ∨ s.statistics.mean = none ∨
            s.params.variance = none ∨ s.confidence = none)) ∨
         (s.meanCIKnownVarianceFlag = false ∧ s.meanCIUnknownVarianceFlag = true ∧
           (s.params.sampleSize = none ∨ s.statistics.mean = none ∨
            s.statistics.unbiasedVariance = none ∨ s.confidence = none)) ∨
         (s.meanCIKnownVarianceFlag = false ∧ s.meanCIUnknownVarianceFlag = false ∧
           s.varianceCIFlag = true ∧
           (s.params.sampleSize = none ∨ s.statistics.unbiasedVariance = none ∨
            s.confidence = none))) :
    runIntervals nq tq cq sq s = .error .missingData := by
  rcases h with ⟨hf, hm⟩ | ⟨hf1, hf2, hm⟩ | ⟨hf1, hf2, hf3, hm⟩
  · rw [runIntervals, knownVarianceBlock_missing nq sq s hf hm]
  · rw [runIntervals, knownVarianceBlock_off nq sq s hf1,
      unknownVarianceBlock_missing tq sq s hf2 hm]
  · rw [runIntervals, knownVarianceBlock_off nq sq s hf1,
      unknownVarianceBlock_off tq sq s hf2, varianceBlock_missing cq s hf3 hm]

/-- Witness for C8: the known-variance interval is requested, everything is
present except `params.variance`, and the run errors with MissingData. -/
theorem missing_prerequisite_errors_witness :
    runIntervals id (fun _ p => p) (fun _ p => p) id
        ⟨none, none, ⟨some 6, none, none, none⟩, ⟨some 2, none, none, none, none⟩,
          some (1 / 2), true, false, false⟩ =
      .error .missingData :=
  missing_prerequisite_errors id (fun _ p => p) (fun _ p => p) id
    ⟨none, none, ⟨some 6, none, none, none⟩, ⟨some 2, none, none, none, none⟩,
      some (1 / 2), true, false, false⟩
    (Or.inl ⟨rfl, Or.inr (Or.inr (Or.inl rfl))⟩)

/-- C10: whenever `calculateStatistics` succeeds, the resulting statistics
block contains a biased variance iff it contains an unbiased one, and when
both are present the two standard deviations are present and are the square
roots of the corresponding variances. -/
theorem variance_fields_consistent (sq : ℚ → ℚ) (s s' : Sample)
    (h : calculateStatistics sq s = .ok s') :
    (s'.statistics.biasedVariance.isSome ↔ s'.statistics.unbiasedVariance.isSome) ∧
    ∀ b u, s'.statistics.biasedVariance = some b →
      s'.statistics.unbiasedVariance = some u →
      s'.statistics.biasedStandardDeviation = some (sq b) ∧
      s'.statistics.unbiasedStandardDeviation = some (sq u) := by
  rw [calculateStatistics] at h
  exact finishStats_ok sq _ s' h

/-- Witness for C10 on the raw dataset `[2, 4]` with `sq = id`. -/
theorem variance_fields_consistent_witness :
    Statistics.biasedStandardDeviation ⟨some 3, some 1, some 2, some 1, some 2⟩ =
      some (id (1 : ℚ)) ∧
    Statistics.unbiasedStandardDeviation ⟨some 3, some 1, some 2, some 1, some 2⟩ =
      some (id (2 : ℚ)) :=
  (variance_fields_consistent id
      ⟨some [2, 4], none, ⟨none, none, none, none⟩, ⟨none, none, none, none, none⟩,
        none, false, false, false⟩
      ⟨some [2, 4], none, ⟨some 2, none, none, none⟩,
        ⟨some 3, some 1, some 2, some 1, some 2⟩, none, false, false, false⟩
      (by norm_num [calculateStatistics, calculateStatisticsOn, finishStats,
        biasConvert, addStdDevs, makeVarSeries, sampleMean, sampleMeanGo,
        biasedSampleVariance, sampleSize, unbiasedFromBiased])).2 1 2 rfl rfl

/-- C2: computing statistics from a frequency table equals computing them from
the raw-values dataset repeating each value per its frequency — both the whole
statistics block and the realized sample size agree; in particular the table
`{1:2, 2:2, 3:2}` and the raw values `[1,1,2,2,3,3]` both yield mean `2`,
biased variance `2/3`, unbiased variance `4/5` and sample size `6`. -/
theorem freqTable_equals_rawValues (sq : ℚ → ℚ) (table : List (ℚ × ℕ)) (s : Sample)
    (hv : s.values = none) :
    (Except.map Sample.statistics
        (calculateStatistics sq { s with variationalSeries := some (tableToVarSeries table) }) =
      Except.map Sample.statistics
        (calculateStatistics sq
          { s with values := some (rawOfTable table), variationalSeries := none }) ∧
      Except.map (fun t => t.params.sampleSize)
        (calculateStatistics sq { s with variationalSeries := some (tableToVarSeries table) }) =
      Except.map (fun t => t.params.sampleSize)
        (calculateStatistics sq
          { s with values := some (rawOfTable table), variationalSeries := none })) ∧
    (calculateStatistics id
        ⟨none, some [(1, 2), (2, 2), (3, 2)], ⟨none, none, none, none⟩,
          ⟨none, none, none, none, none⟩, none, false, false, false⟩ =
      .ok ⟨none, some [(1, 2), (2, 2), (3, 2)], ⟨some 6, none, none, none⟩,
          ⟨some 2, some (2 / 3), some (4 / 5), some (2 / 3), some (4 / 5)⟩,
          none, false, false, false⟩ ∧
      calculateStatistics id
        ⟨some [1, 1, 2, 2, 3, 3], none, ⟨none, none, none, none⟩,
          ⟨none, none, none, none, none⟩, none, false, false, false⟩ =
      .ok ⟨some [1, 1, 2, 2, 3, 3], none, ⟨some 6, none, none, none⟩,
          ⟨some 2, some (2 / 3), some (4 / 5), some (2 / 3), some (4 / 5)⟩,
          none, false, false, false⟩) := by
  constructor
  · have hT := calculateStatistics_series sq
      { s with variationalSeries := some (tableToVarSeries table) }
      (tableToVarSeries table) hv rfl
    have hR := calculateStatistics_values sq
      { s with values := some (rawOfTable table), variationalSeries := none }
      (rawOfTable table) rfl
    rw [hT, hR]
    apply finishStats_proj
    · show Params.mk _ _ _ _ = Params.mk _ _ _ _
      rw [expand_sampleSize]
    · show Statistics.mk _ _ _ _ _ = Statistics.mk _ _ _ _ _
      rw [expand_sampleMean, expand_biasedSampleVariance]
  · constructor
    · norm_num [calculateStatistics, calculateStatisticsOn, finishStats,
        biasConvert, addStdDevs, makeVarSeries, sampleMean, sampleMeanGo,
        biasedSampleVariance, sampleSize, unbiasedFromBiased]
    · norm_num [calculateStatistics, calculateStatisticsOn, finishStats,
        biasConvert, addStdDevs, makeVarSeries, sampleMean, sampleMeanGo,
        biasedSampleVariance, sampleSize, unbiasedFromBiased]

/-- Witness for C2 at `sq = id`, the table `{1:2, 2:2, 3:2}` and an otherwise
empty sample. -/
theorem freqTable_equals_rawValues_witness :
    (Except.map Sample.statistics
        (calculateStatistics id
          { (⟨none, none, ⟨none, none, none, none⟩, ⟨none, none, none, none, none⟩,
              none, false, false, false⟩ : Sample) with
            variationalSeries :=
              some (tableToVarSeries [((1 : ℚ), (2 : ℕ)), (2, 2), (3, 2)]) }) =
      Except.map Sample.statistics
        (calculateStatistics id
          { (⟨none, none, ⟨none, none, none, none⟩, ⟨none, none, none, none, none⟩,
              none, false, false, false⟩ : Sample) with
            values := some (rawOfTable [((1 : ℚ), (2 : ℕ)), (2, 2), (3, 2)]),
            variationalSeries := none }) ∧
      Except.map (fun t => t.params.sampleSize)
        (calculateStatistics id
          { (⟨none, none, ⟨none, none, none, none⟩, ⟨none, none, none, none, none⟩,
              none, false, false, false⟩ : Sample) with
            variationalSeries :=
              some (tableToVarSeries [((1 : ℚ), (2 : ℕ)), (2, 2), (3, 2)]) }) =
      Except.map (fun t => t.params.sampleSize)
        (calculateStatistics id
          { (⟨none, none, ⟨none, none, none, none⟩, ⟨none, none, none, none, none⟩,
              none, false, false, false⟩ : Sample) with
            values := some (rawOfTable [((1 : ℚ), (2 : ℕ)), (2, 2), (3, 2)]),
            variationalSeries := none })) ∧
    (calculateStatistics id
        ⟨none, some [(1, 2), (2, 2), (3, 2)], ⟨none, none, none, none⟩,
          ⟨none, none, none, none, none⟩, none, false, false, false⟩ =
      .ok ⟨none, some [(1, 2), (2, 2), (3, 2)], ⟨some 6, none, none, none⟩,
          ⟨some 2, some (2 / 3), some (4 / 5), some (2 / 3), some (4 / 5)⟩,
          none, false, false, false⟩ ∧
      calculateStatistics id
        ⟨some [1, 1, 2, 2, 3, 3], none, ⟨none, none, none, none⟩,
          ⟨none, none, none, none, none⟩, none, false, false, false⟩ =
      .ok ⟨some [1, 1, 2, 2, 3, 3], none, ⟨some 6, none, none, none⟩,
          ⟨some 2, some (2 / 3), some (4 / 5), some (2 / 3), some (4 / 5)⟩,
          none, false, false, false⟩) :=
  freqTable_equals_rawValues id [((1 : ℚ), (2 : ℕ)), (2, 2), (3, 2)]
    ⟨none, none, ⟨none, none, none, none⟩, ⟨none, none, none, none, none⟩,
      none, false, false, false⟩ rfl

end ProbLab5
